import Mathlib

/-!
Shallow embedding of `src/arcade_catalog.py` (arcade machine catalog).

Numeric fields (`price`, `weight`, `power_consumption`) are modelled as
exact rationals `ℚ`; Python float literals such as `1.1` become the exact
rationals `11/10`.  Python object identity (the default `==` used by
`in`/`list.remove` on `Videogame`, which defines no `__eq__`) is modelled
by giving each `Videogame` an object-identity tag `oid : Nat`: two
distinct Python objects are two records differing at least in `oid`,
and structural equality of records then coincides with Python identity.
Mutation is modelled functionally: every method that mutates `self`
becomes a function returning the updated record.
-/

namespace ArcadeCatalog

/-- Python `str.lower()`: character-wise lowercasing (the repository only
uses ASCII material, name and type strings). -/
def pyLower (s : String) : String := ⟨s.data.map Char.toLower⟩

/-- `Dimensions` from `arcade_catalog.py`: length, width, height. -/
structure Dimensions where
  length : ℚ
  width : ℚ
  height : ℚ
deriving DecidableEq

/-- `Videogame` from `arcade_catalog.py`.  The `oid` field models Python
object identity (see module docstring); the remaining fields are the
attributes set by `Videogame.__init__`. -/
structure Videogame where
  oid : Nat
  name : String
  storytelling_creator : String
  graphics_creator : String
  category : String
  price : ℚ
  year : Int
  is_high_definition : Bool
deriving DecidableEq

/-- `Videogame.__init__`: stores all arguments, then multiplies the stored
price by 1.1 exactly once when `is_high_definition` holds. -/
def Videogame.make (oid : Nat) (name storytelling_creator graphics_creator
    category : String) (price : ℚ) (year : Int)
    (is_high_definition : Bool) : Videogame :=
  ⟨oid, name, storytelling_creator, graphics_creator, category,
   if is_high_definition then price * 1.1 else price,
   year, is_high_definition⟩

/-- `Machine` from `arcade_catalog.py`: the attributes set by
`Machine.__init__` (the subclass templates additionally attach dynamic
attributes such as `difficulties` or `number_of_guns`; no catalog
operation reads them, so they are not modelled). -/
structure Machine where
  material : String
  dimensions : Dimensions
  weight : ℚ
  power_consumption : ℚ
  memory : Nat
  processors : Nat
  base_price : ℚ
  color : String
  videogames : List Videogame
deriving DecidableEq

/-- `Machine.__init__`: stores the eight arguments and starts with an
empty videogame list. -/
def Machine.init (material : String) (dimensions : Dimensions)
    (weight power_consumption : ℚ) (memory processors : Nat)
    (base_price : ℚ) (color : String) : Machine :=
  ⟨material, dimensions, weight, power_consumption, memory, processors,
   base_price, color, []⟩

/-- `Machine.add_videogame`: appends `game` to `self.videogames` and adds
`game.price` to `self.base_price`. -/
def Machine.add_videogame (m : Machine) (game : Videogame) : Machine :=
  ⟨m.material, m.dimensions, m.weight, m.power_consumption, m.memory,
   m.processors, m.base_price + game.price, m.color,
   m.videogames ++ [game]⟩

/-- `Machine.remove_videogame`: when `game in self.videogames` (Python
`==`, i.e. identity here), `list.remove` deletes the first occurrence and
`game.price` is subtracted from `self.base_price`; otherwise nothing
happens. -/
def Machine.remove_videogame (m : Machine) (game : Videogame) : Machine :=
  if game ∈ m.videogames then
    ⟨m.material, m.dimensions, m.weight, m.power_consumption, m.memory,
     m.processors, m.base_price - game.price, m.color,
     m.videogames.erase game⟩
  else m

/-- `Machine.calculate_total_price`: returns the current `base_price`
without re-summing the videogame list. -/
def Machine.calculate_total_price (m : Machine) : ℚ :=
  m.base_price

/-- `DanceRevolutionMachine.create_machine`. -/
def DanceRevolutionMachine.create_machine (material color : String) : Machine :=
  Machine.init material ⟨2.0, 1.5, 2.2⟩ 200 1000 8 2 5000 color

/-- `ClassicalArcadeMachine.create_machine`. -/
def ClassicalArcadeMachine.create_machine (material color : String) : Machine :=
  Machine.init material ⟨0.8, 0.6, 1.8⟩ 100 500 4 1 3000 color

/-- `ShootingMachine.create_machine`. -/
def ShootingMachine.create_machine (material color : String) : Machine :=
  Machine.init material ⟨1.5, 1.2, 2.0⟩ 150 800 8 2 4000 color

/-- `RacingMachine.create_machine`. -/
def RacingMachine.create_machine (material color : String) : Machine :=
  Machine.init material ⟨2.0, 1.8, 1.5⟩ 180 1200 16 4 6000 color

/-- `VirtualRealityMachine.create_machine`. -/
def VirtualRealityMachine.create_machine (material color : String) : Machine :=
  Machine.init material ⟨2.5, 2.5, 2.2⟩ 220 1500 32 8 8000 color

/-- The five `PredefinedMachine` subclasses stored in the
`predefined_machines` dictionary of `MachineFactory.create_machine`. -/
inductive PredefinedMachineKind where
  | danceRevolution
  | classicalArcade
  | shooting
  | racing
  | virtualReality
deriving DecidableEq

/-- Dispatch of `create_machine` over the predefined machine kinds. -/
def PredefinedMachineKind.create_machine :
    PredefinedMachineKind → String → String → Machine
  | .danceRevolution => DanceRevolutionMachine.create_machine
  | .classicalArcade => ClassicalArcadeMachine.create_machine
  | .shooting => ShootingMachine.create_machine
  | .racing => RacingMachine.create_machine
  | .virtualReality => VirtualRealityMachine.create_machine

/-- The `predefined_machines` dictionary lookup: exact (case-sensitive)
string match against the five fixed keys. -/
def predefined_machines (machine_type : String) : Option PredefinedMachineKind :=
  if machine_type = "DanceRevolution" then some .danceRevolution
  else if machine_type = "ClassicalArcade" then some .classicalArcade
  else if machine_type = "Shooting" then some .shooting
  else if machine_type = "Racing" then some .racing
  else if machine_type = "VirtualReality" then some .virtualReality
  else none

/-- `WoodMaterialDecorator.adjust_weight`: weight +10%. -/
def WoodMaterialDecorator.adjust_weight (m : Machine) : Machine :=
  ⟨m.material, m.dimensions, m.weight * 1.1, m.power_consumption, m.memory,
   m.processors, m.base_price, m.color, m.videogames⟩

/-- `WoodMaterialDecorator.adjust_price`: price -5%. -/
def WoodMaterialDecorator.adjust_price (m : Machine) : Machine :=
  ⟨m.material, m.dimensions, m.weight, m.power_consumption, m.memory,
   m.processors, m.base_price * 0.95, m.color, m.videogames⟩

/-- `WoodMaterialDecorator.adjust_power_consumption`: power +15%. -/
def WoodMaterialDecorator.adjust_power_consumption (m : Machine) : Machine :=
  ⟨m.material, m.dimensions, m.weight, m.power_consumption * 1.15, m.memory,
   m.processors, m.base_price, m.color, m.videogames⟩

/-- `AluminiumMaterialDecorator.adjust_weight`: weight -5%. -/
def AluminiumMaterialDecorator.adjust_weight (m : Machine) : Machine :=
  ⟨m.material, m.dimensions, m.weight * 0.95, m.power_consumption, m.memory,
   m.processors, m.base_price, m.color, m.videogames⟩

/-- `AluminiumMaterialDecorator.adjust_price`: price +10%. -/
def AluminiumMaterialDecorator.adjust_price (m : Machine) : Machine :=
  ⟨m.material, m.dimensions, m.weight, m.power_consumption, m.memory,
   m.processors, m.base_price * 1.1, m.color, m.videogames⟩

/-- `AluminiumMaterialDecorator.adjust_power_consumption`: `pass`. -/
def AluminiumMaterialDecorator.adjust_power_consumption (m : Machine) : Machine :=
  m

/-- `CarbonFiberMaterialDecorator.adjust_weight`: weight -15%. -/
def CarbonFiberMaterialDecorator.adjust_weight (m : Machine) : Machine :=
  ⟨m.material, m.dimensions, m.weight * 0.85, m.power_consumption, m.memory,
   m.processors, m.base_price, m.color, m.videogames⟩

/-- `CarbonFiberMaterialDecorator.adjust_price`: price +20%. -/
def CarbonFiberMaterialDecorator.adjust_price (m : Machine) : Machine :=
  ⟨m.material, m.dimensions, m.weight, m.power_consumption, m.memory,
   m.processors, m.base_price * 1.2, m.color, m.videogames⟩

/-- `CarbonFiberMaterialDecorator.adjust_power_consumption`: power -10%. -/
def CarbonFiberMaterialDecorator.adjust_power_consumption (m : Machine) : Machine :=
  ⟨m.material, m.dimensions, m.weight, m.power_consumption * 0.9, m.memory,
   m.processors, m.base_price, m.color, m.videogames⟩

/-- The three `MaterialDecorator` subclasses stored in the
`material_decorators` dictionary of `MachineFactory.create_machine`. -/
inductive MaterialDecoratorKind where
  | wood
  | aluminium
  | carbonFiber
deriving DecidableEq

/-- Dispatch of `adjust_weight` over the decorator kinds. -/
def MaterialDecoratorKind.adjust_weight : MaterialDecoratorKind → Machine → Machine
  | .wood => WoodMaterialDecorator.adjust_weight
  | .aluminium => AluminiumMaterialDecorator.adjust_weight
  | .carbonFiber => CarbonFiberMaterialDecorator.adjust_weight

/-- Dispatch of `adjust_price` over the decorator kinds. -/
def MaterialDecoratorKind.adjust_price : MaterialDecoratorKind → Machine → Machine
  | .wood => WoodMaterialDecorator.adjust_price
  | .aluminium => AluminiumMaterialDecorator.adjust_price
  | .carbonFiber => CarbonFiberMaterialDecorator.adjust_price

/-- Dispatch of `adjust_power_consumption` over the decorator kinds. -/
def MaterialDecoratorKind.adjust_power_consumption :
    MaterialDecoratorKind → Machine → Machine
  | .wood => WoodMaterialDecorator.adjust_power_consumption
  | .aluminium => AluminiumMaterialDecorator.adjust_power_consumption
  | .carbonFiber => CarbonFiberMaterialDecorator.adjust_power_consumption

/-- The `material_decorators` dictionary lookup: the factory looks up
`material.lower()`, so the match is case-insensitive. -/
def material_decorators (lowered_material : String) : Option MaterialDecoratorKind :=
  if lowered_material = "wood" then some .wood
  else if lowered_material = "aluminium" then some .aluminium
  else if lowered_material = "carbon fiber" then some .carbonFiber
  else none

/-- `MachineFactory.create_machine`: looks up the machine type
(case-sensitively); absent → `None`.  Builds the template machine, then,
when `material.lower()` matches a decorator, applies `adjust_weight`,
`adjust_price`, `adjust_power_consumption` in that order; otherwise the
machine is returned unmodified. -/
def MachineFactory.create_machine (machine_type material color : String) :
    Option Machine :=
  match predefined_machines machine_type with
  | none => none
  | some kind =>
    let machine := kind.create_machine material color
    match material_decorators (pyLower material) with
    | none => some machine
    | some d =>
      some (d.adjust_power_consumption (d.adjust_price (d.adjust_weight machine)))

/-- `CatalogManager`: its state is the ordered list `self.machines`. -/
abbrev CatalogManager := List Machine

/-- `CatalogManager.register_machine`: appends to the store. -/
def CatalogManager.register_machine (c : CatalogManager) (machine : Machine) :
    CatalogManager :=
  c ++ [machine]

/-- `CatalogManager.search_by_videogame_count`: machines whose videogame
list has exactly `count` entries (`count` is a Python `int`, so it may be
negative). -/
def CatalogManager.search_by_videogame_count (c : CatalogManager)
    (count : Int) : List Machine :=
  c.filter (fun m => decide ((m.videogames.length : Int) = count))

/-- `CatalogManager.search_by_material`: case-insensitive material match. -/
def CatalogManager.search_by_material (c : CatalogManager)
    (material : String) : List Machine :=
  c.filter (fun m => decide (pyLower m.material = pyLower material))

/-- `CatalogManager.search_by_videogame_name`: machines holding a game
whose name matches case-insensitively. -/
def CatalogManager.search_by_videogame_name (c : CatalogManager)
    (name : String) : List Machine :=
  c.filter (fun m => m.videogames.any (fun v => decide (pyLower v.name = pyLower name)))

/-- `CatalogManager.search_by_price_range`: inclusive range over
`calculate_total_price()`. -/
def CatalogManager.search_by_price_range (c : CatalogManager)
    (min_price max_price : ℚ) : List Machine :=
  c.filter (fun m =>
    decide (min_price ≤ m.calculate_total_price ∧ m.calculate_total_price ≤ max_price))

/-- `CatalogManager.search_by_weight_range`: inclusive range over `weight`. -/
def CatalogManager.search_by_weight_range (c : CatalogManager)
    (min_weight max_weight : ℚ) : List Machine :=
  c.filter (fun m => decide (min_weight ≤ m.weight ∧ m.weight ≤ max_weight))

/-- `CatalogManager.search_by_power_consumption_range`: inclusive range
over `power_consumption`. -/
def CatalogManager.search_by_power_consumption_range (c : CatalogManager)
    (min_power max_power : ℚ) : List Machine :=
  c.filter (fun m =>
    decide (min_power ≤ m.power_consumption ∧ m.power_consumption ≤ max_power))

/-- One `add_videogame`/`remove_videogame` call, for reasoning about call
sequences on a machine. -/
inductive GameOp where
  | add (game : Videogame)
  | remove (game : Videogame)

/-- Run one call on a machine. -/
def GameOp.apply (m : Machine) : GameOp → Machine
  | .add game => m.add_videogame game
  | .remove game => m.remove_videogame game

/-- Run a sequence of calls on a machine, in order. -/
def Machine.runOps (m : Machine) (ops : List GameOp) : Machine :=
  ops.foldl GameOp.apply m

/-! ### Helper lemmas -/

/-- Erasing a present videogame removes exactly its price from the total. -/
lemma sum_map_price_erase (l : List Videogame) (g : Videogame) (h : g ∈ l) :
    ((l.erase g).map Videogame.price).sum
      = (l.map Videogame.price).sum - g.price := by
  have hperm : l.Perm (g :: l.erase g) := List.perm_cons_erase h
  have := (hperm.map Videogame.price).sum_eq
  simp only [List.map_cons, List.sum_cons] at this
  rw [this]
  ring

/-- The difference `base_price - Σ price` is preserved by one
`add_videogame`/`remove_videogame` call. -/
lemma apply_price_sum (m : Machine) (op : GameOp) :
    (op.apply m).base_price - ((op.apply m).videogames.map Videogame.price).sum
      = m.base_price - (m.videogames.map Videogame.price).sum := by
  cases op with
  | add g =>
    simp [GameOp.apply, Machine.add_videogame]
  | remove g =>
    by_cases h : g ∈ m.videogames
    · simp [GameOp.apply, Machine.remove_videogame, h, sum_map_price_erase _ _ h]
    · simp [GameOp.apply, Machine.remove_videogame, h]

/-- The difference `base_price - Σ price` is preserved by any call
sequence. -/
lemma runOps_price_sum (ops : List GameOp) : ∀ m : Machine,
    (m.runOps ops).base_price - ((m.runOps ops).videogames.map Videogame.price).sum
      = m.base_price - (m.videogames.map Videogame.price).sum := by
  induction ops with
  | nil => intro m; rfl
  | cons op ops ih =>
    intro m
    have hstep : m.runOps (op :: ops) = (op.apply m).runOps ops := rfl
    rw [hstep, ih (op.apply m), apply_price_sum]

/-! ### Claims -/

/-- C1: after any sequence of `add_videogame`/`remove_videogame` calls on
a freshly constructed machine, `calculate_total_price` returns exactly the
initial base price plus the sum of the prices of the currently attached
videogames; moreover `calculate_total_price` is a pure read of the
incrementally maintained `base_price` field and never re-sums the list. -/
theorem C1_total_price_invariant (material : String) (dims : Dimensions)
    (weight power_consumption : ℚ) (memory processors : Nat)
    (base_price : ℚ) (color : String) (ops : List GameOp) :
    ((Machine.init material dims weight power_consumption memory processors
        base_price color).runOps ops).calculate_total_price
      = base_price
        + (((Machine.init material dims weight power_consumption memory
              processors base_price color).runOps ops).videogames.map
            Videogame.price).sum
    ∧ ∀ m : Machine, m.calculate_total_price = m.base_price := by
  constructor
  · have h := runOps_price_sum ops (Machine.init material dims weight
      power_consumption memory processors base_price color)
    have hvg : (Machine.init material dims weight power_consumption memory
        processors base_price color).videogames = [] := rfl
    have hbp : (Machine.init material dims weight power_consumption memory
        processors base_price color).base_price = base_price := rfl
    rw [hvg, hbp, List.map_nil, List.sum_nil, sub_zero] at h
    rw [Machine.calculate_total_price]
    linarith
  · intro m; rfl

/-- C2: `MachineFactory.create_machine "Racing" "Aluminium" "Red"` returns
a machine (the material matched case-insensitively selects the aluminium
adjustment) with weight exactly `180 * 0.95 = 171`, base price exactly
`6000 * 1.1 = 6600`, and power consumption unchanged at `1200`. -/
theorem C2_racing_aluminium :
    ∃ m : Machine,
      MachineFactory.create_machine "Racing" "Aluminium" "Red" = some m
      ∧ m.weight = 180 * 0.95 ∧ m.weight = 171
      ∧ m.base_price = 6000 * 1.1 ∧ m.base_price = 6600
      ∧ m.power_consumption = 1200 := by
  refine ⟨_, rfl, ?_, ?_, ?_, ?_, ?_⟩ <;>
    norm_num [MaterialDecoratorKind.adjust_weight,
      MaterialDecoratorKind.adjust_price,
      MaterialDecoratorKind.adjust_power_consumption,
      AluminiumMaterialDecorator.adjust_weight,
      AluminiumMaterialDecorator.adjust_price,
      AluminiumMaterialDecorator.adjust_power_consumption,
      PredefinedMachineKind.create_machine, RacingMachine.create_machine,
      Machine.init]

/-- C4: constructing a `Videogame` with `is_high_definition = true` stores
the input price multiplied by `1.1` exactly once; with `false` it stores
the input price unchanged (construction is a total pure function, and the
stored price is a plain field never re-adjusted on reads). -/
theorem C4_hd_price (oid : Nat) (n s g c : String) (price : ℚ) (year : Int) :
    (Videogame.make oid n s g c price year true).price = price * 1.1
    ∧ (Videogame.make oid n s g c price year false).price = price :=
  ⟨rfl, rfl⟩

/-- C3: for every machine type string differing (case-sensitively) from
all five known type names, `MachineFactory.create_machine` returns `none`
(and, being a total function, raises nothing); in particular
`create_machine "Unknown" "wood" "Blue"` is `none`. -/
theorem C3_unknown_type (machine_type material color : String)
    (h1 : machine_type ≠ "DanceRevolution")
    (h2 : machine_type ≠ "ClassicalArcade")
    (h3 : machine_type ≠ "Shooting")
    (h4 : machine_type ≠ "Racing")
    (h5 : machine_type ≠ "VirtualReality") :
    MachineFactory.create_machine machine_type material color = none
    ∧ MachineFactory.create_machine "Unknown" "wood" "Blue" = none := by
  constructor
  · simp [MachineFactory.create_machine, predefined_machines,
      h1, h2, h3, h4, h5]
  · decide

/-- Witness for C3 at machine type `"Unknown"`. -/
theorem C3_unknown_type_witness :
    ("Unknown" : String) ≠ "DanceRevolution"
    ∧ ("Unknown" : String) ≠ "ClassicalArcade"
    ∧ ("Unknown" : String) ≠ "Shooting"
    ∧ ("Unknown" : String) ≠ "Racing"
    ∧ ("Unknown" : String) ≠ "VirtualReality"
    ∧ MachineFactory.create_machine "Unknown" "wood" "Blue" = none :=
  ⟨by decide, by decide, by decide, by decide, by decide,
   (C3_unknown_type "Unknown" "wood" "Blue" (by decide) (by decide)
     (by decide) (by decide) (by decide)).1⟩

/-- C5: `remove_videogame` with a present game (identity comparison)
removes exactly its first occurrence and lowers `base_price` by
`game.price`; with an absent game it is a silent no-op on the whole
machine. -/
theorem C5_remove_semantics (m : Machine) (game : Videogame) :
    (game ∈ m.videogames →
      ∃ l₁ l₂, game ∉ l₁ ∧ m.videogames = l₁ ++ game :: l₂
        ∧ (m.remove_videogame game).videogames = l₁ ++ l₂
        ∧ (m.remove_videogame game).base_price = m.base_price - game.price)
    ∧ (game ∉ m.videogames → m.remove_videogame game = m) := by
  constructor
  · intro h
    obtain ⟨l₁, l₂, hnot, heq, herase⟩ := List.exists_erase_eq h
    refine ⟨l₁, l₂, hnot, heq, ?_, ?_⟩
    · rw [Machine.remove_videogame, if_pos h]
      exact herase
    · rw [Machine.remove_videogame, if_pos h]
  · intro h
    rw [Machine.remove_videogame, if_neg h]

/-- A sample videogame for the C5 witness. -/
def gW : Videogame := ⟨0, "Pac-Man", "Namco", "Namco", "Arcade", 10, 1980, false⟩

/-- A value-equal twin of `gW` with a different object identity. -/
def hW : Videogame := ⟨1, "Pac-Man", "Namco", "Namco", "Arcade", 10, 1980, false⟩

/-- A sample machine holding `gW` (but not `hW`) for the C5 witness. -/
def mW : Machine := ⟨"wood", ⟨1, 1, 1⟩, 100, 500, 4, 1, 3010, "Red", [gW]⟩

/-- Witness for C5: removing the attached `gW` works, while removing its
identity-distinct but value-equal twin `hW` is a no-op. -/
theorem C5_remove_semantics_witness :
    (gW ∈ mW.videogames
      ∧ ∃ l₁ l₂, gW ∉ l₁ ∧ mW.videogames = l₁ ++ gW :: l₂
          ∧ (mW.remove_videogame gW).videogames = l₁ ++ l₂
          ∧ (mW.remove_videogame gW).base_price = mW.base_price - gW.price)
    ∧ (hW ∉ mW.videogames ∧ mW.remove_videogame hW = mW) :=
  ⟨⟨by decide, (C5_remove_semantics mW gW).1 (by decide)⟩,
   ⟨by decide, (C5_remove_semantics mW hW).2 (by decide)⟩⟩

/-- C6: for a valid machine type and a material whose lowercasing matches
none of the three decorator keys, the factory returns the
template-constructed machine completely unmodified, with no error. -/
theorem C6_unknown_material (machine_type material color : String)
    (kind : PredefinedMachineKind)
    (hk : predefined_machines machine_type = some kind)
    (h1 : pyLower material ≠ "wood")
    (h2 : pyLower material ≠ "aluminium")
    (h3 : pyLower material ≠ "carbon fiber") :
    MachineFactory.create_machine machine_type material color
      = some (kind.create_machine material color) := by
  simp [MachineFactory.create_machine, hk, material_decorators, h1, h2, h3]

/-- Witness for C6: a racing machine in unrecognized material "Steel". -/
theorem C6_unknown_material_witness :
    predefined_machines "Racing" = some PredefinedMachineKind.racing
    ∧ pyLower "Steel" ≠ "wood"
    ∧ pyLower "Steel" ≠ "aluminium"
    ∧ pyLower "Steel" ≠ "carbon fiber"
    ∧ MachineFactory.create_machine "Racing" "Steel" "Blue"
        = some (PredefinedMachineKind.racing.create_machine "Steel" "Blue") :=
  ⟨by decide, by decide, by decide, by decide,
   C6_unknown_material "Racing" "Steel" "Blue" .racing (by decide)
     (by decide) (by decide) (by decide)⟩

/-- Machine of weight 100 for the C7 scenario. -/
def m100W : Machine := Machine.init "wood" ⟨1, 1, 1⟩ 100 500 4 1 3000 "Red"

/-- Machine of weight 171 for the C7 scenario. -/
def m171W : Machine := Machine.init "aluminium" ⟨1, 1, 1⟩ 171 800 8 2 6600 "Blue"

/-- Machine of weight 250 for the C7 scenario. -/
def m250W : Machine := Machine.init "steel" ⟨1, 1, 1⟩ 250 1500 32 8 8000 "Black"

/-- C7: each range search returns exactly the registered machines whose
field lies in the inclusive range, as a sublist of the store (so insertion
order is preserved; the store itself is untouched since the searches are
pure functions of it); `min > max` yields the empty list; and the concrete
weight scenario 100/171/250 with range [150, 200] returns exactly the
weight-171 machine. -/
theorem C7_range_searches :
    (∀ (c : CatalogManager) (lo hi : ℚ) (m : Machine),
        m ∈ c.search_by_price_range lo hi
          ↔ m ∈ c ∧ lo ≤ m.calculate_total_price ∧ m.calculate_total_price ≤ hi)
    ∧ (∀ (c : CatalogManager) (lo hi : ℚ) (m : Machine),
        m ∈ c.search_by_weight_range lo hi
          ↔ m ∈ c ∧ lo ≤ m.weight ∧ m.weight ≤ hi)
    ∧ (∀ (c : CatalogManager) (lo hi : ℚ) (m : Machine),
        m ∈ c.search_by_power_consumption_range lo hi
          ↔ m ∈ c ∧ lo ≤ m.power_consumption ∧ m.power_consumption ≤ hi)
    ∧ (∀ (c : CatalogManager) (lo hi : ℚ),
        (c.search_by_price_range lo hi).Sublist c
        ∧ (c.search_by_weight_range lo hi).Sublist c
        ∧ (c.search_by_power_consumption_range lo hi).Sublist c)
    ∧ (∀ (c : CatalogManager) (lo hi : ℚ), hi < lo →
        c.search_by_price_range lo hi = []
        ∧ c.search_by_weight_range lo hi = []
        ∧ c.search_by_power_consumption_range lo hi = [])
    ∧ (CatalogManager.register_machine
        (CatalogManager.register_machine
          (CatalogManager.register_machine [] m100W) m171W)
        m250W).search_by_weight_range 150 200 = [m171W] := by
  refine ⟨?_, ?_, ?_, ?_, ?_, ?_⟩
  · intro c lo hi m
    simp [CatalogManager.search_by_price_range, List.mem_filter]
  · intro c lo hi m
    simp [CatalogManager.search_by_weight_range, List.mem_filter]
  · intro c lo hi m
    simp [CatalogManager.search_by_power_consumption_range, List.mem_filter]
  · intro c lo hi
    exact ⟨List.filter_sublist c, List.filter_sublist c, List.filter_sublist c⟩
  · intro c lo hi h
    refine ⟨?_, ?_, ?_⟩
    · rw [CatalogManager.search_by_price_range, List.filter_eq_nil_iff]
      intro a _
      simp only [decide_eq_true_eq, not_and, not_le]
      intro h1
      linarith
    · rw [CatalogManager.search_by_weight_range, List.filter_eq_nil_iff]
      intro a _
      simp only [decide_eq_true_eq, not_and, not_le]
      intro h1
      linarith
    · rw [CatalogManager.search_by_power_consumption_range,
        List.filter_eq_nil_iff]
      intro a _
      simp only [decide_eq_true_eq, not_and, not_le]
      intro h1
      linarith
  · decide

/-- Witness for C7 at a two-machine catalog and the empty range
`[150, 100]`. -/
theorem C7_range_searches_witness :
    (100 : ℚ) < 150
    ∧ CatalogManager.search_by_price_range [m100W, m171W] 150 100 = []
    ∧ CatalogManager.search_by_weight_range [m100W, m171W] 150 100 = []
    ∧ CatalogManager.search_by_power_consumption_range
        [m100W, m171W] 150 100 = [] :=
  ⟨by decide,
   (C7_range_searches.2.2.2.2.1 [m100W, m171W] 150 100 (by decide)).1,
   (C7_range_searches.2.2.2.2.1 [m100W, m171W] 150 100 (by decide)).2.1,
   (C7_range_searches.2.2.2.2.1 [m100W, m171W] 150 100 (by decide)).2.2⟩

/-- C8: for each material decorator the three adjustments touch disjoint
fields, so all six application orders produce the machine obtained by the
factory's weight-then-price-then-power order. -/
theorem C8_adjust_order (d : MaterialDecoratorKind) (m : Machine) :
    d.adjust_power_consumption (d.adjust_price (d.adjust_weight m))
        = d.adjust_power_consumption (d.adjust_weight (d.adjust_price m))
    ∧ d.adjust_power_consumption (d.adjust_price (d.adjust_weight m))
        = d.adjust_price (d.adjust_power_consumption (d.adjust_weight m))
    ∧ d.adjust_power_consumption (d.adjust_price (d.adjust_weight m))
        = d.adjust_price (d.adjust_weight (d.adjust_power_consumption m))
    ∧ d.adjust_power_consumption (d.adjust_price (d.adjust_weight m))
        = d.adjust_weight (d.adjust_price (d.adjust_power_consumption m))
    ∧ d.adjust_power_consumption (d.adjust_price (d.adjust_weight m))
        = d.adjust_weight (d.adjust_power_consumption (d.adjust_price m)) := by
  cases d <;> exact ⟨rfl, rfl, rfl, rfl, rfl⟩

/-- C9: `add_videogame` and `remove_videogame` leave every field other
than `videogames` and `base_price` unchanged. -/
theorem C9_frame (m : Machine) (game : Videogame) :
    (m.add_videogame game).material = m.material
    ∧ (m.add_videogame game).dimensions = m.dimensions
    ∧ (m.add_videogame game).weight = m.weight
    ∧ (m.add_videogame game).power_consumption = m.power_consumption
    ∧ (m.add_videogame game).memory = m.memory
    ∧ (m.add_videogame game).processors = m.processors
    ∧ (m.add_videogame game).color = m.color
    ∧ (m.remove_videogame game).material = m.material
    ∧ (m.remove_videogame game).dimensions = m.dimensions
    ∧ (m.remove_videogame game).weight = m.weight
    ∧ (m.remove_videogame game).power_consumption = m.power_consumption
    ∧ (m.remove_videogame game).memory = m.memory
    ∧ (m.remove_videogame game).processors = m.processors
    ∧ (m.remove_videogame game).color = m.color := by
  refine ⟨rfl, rfl, rfl, rfl, rfl, rfl, rfl, ?_, ?_, ?_, ?_, ?_, ?_, ?_⟩ <;>
    · rw [Machine.remove_videogame]
      split <;> rfl

/-- C10: `search_by_videogame_count` is total over all integers: for every
catalog state and every negative count it returns the empty list, since no
videogame list has negative length. -/
theorem C10_negative_count (c : CatalogManager) (count : Int)
    (h : count < 0) :
    c.search_by_videogame_count count = [] := by
  rw [CatalogManager.search_by_videogame_count, List.filter_eq_nil_iff]
  intro m _
  simp only [decide_eq_true_eq]
  omega

/-- Witness for C10 at a catalog holding one machine and `count = -1`. -/
theorem C10_negative_count_witness :
    (-1 : Int) < 0
    ∧ CatalogManager.search_by_videogame_count
        [Machine.init "wood" ⟨1, 1, 1⟩ 100 500 4 1 3000 "Red"] (-1) = [] :=
  ⟨by decide, C10_negative_count _ _ (by decide)⟩

end ArcadeCatalog
